import Mathlib

/-!
Shallow embedding of src/src/main.rs (pico-timer): the interrupt handler
TIMER_IRQ_0, the two shared cells ALARM0 and LED, the shared INTERRUPT_COUNTER,
and the polling loop in main, together with proofs of the spec claims about
them.
-/

namespace PicoTimer

/-- Modulus of the 32-bit unsigned counter INTERRUPT_COUNTER (a Rust u32). -/
def U32MOD : Nat := 2 ^ 32

/-- src/src/main.rs line 50: the fixed interval constant, value 1000, whose
name documents an intent of milliseconds. -/
def ALARM0_INTERVAL_MS : Nat := 1000

/-- The countdown, in microseconds, denoted by the expression
ALARM0_INTERVAL_MS.micros() that main.rs passes to schedule (lines 137 and
210): the fugit micros call reads the raw value as a count of microseconds, so
the scheduled countdown is 1000 microseconds, not 1000 milliseconds. -/
def alarmScheduleMicros : Nat := ALARM0_INTERVAL_MS

/-- State of hardware alarm 0 as the handler affects it: whether its interrupt
condition is pending, and the armed countdown in microseconds when it has been
scheduled. -/
structure AlarmSt where
  pending : Bool
  scheduled : Option Nat
deriving DecidableEq

/-- The shared state touched by the handler: the two cells ALARM0 and LED,
each empty (none) until the one-time setup in main stores the capability, with
the LED tracked by its logical level, plus the counter INTERRUPT_COUNTER. -/
structure SysState where
  alarm : Option AlarmSt
  led : Option Bool
  counter : Nat
deriving DecidableEq

/-- Observable effects of one handler invocation, listed in execution order. -/
inductive Action where
  | clearInterrupt : Action
  | schedule : Nat → Action
  | toggle : Action
  | setCounter : Nat → Action
deriving DecidableEq

/-- The interrupt handler TIMER_IRQ_0 (src/src/main.rs lines 180 to 216).
The counter is read at entry (line 207) and stored back incremented with
wrapping at the end (line 215).  Only when both cells hold a value does the
handler clear the pending condition, reschedule the alarm and toggle the LED
(lines 208 to 213); otherwise that whole block is skipped.  schedOk is the
outcome of the HAL schedule call; on an error the unwrap panics, modelled as a
none final state, reached before the toggle and before the counter store. -/
def TIMER_IRQ_0 (s : SysState) (schedOk : Bool) : Option SysState × List Action :=
  let counter := s.counter
  match s.alarm, s.led with
  | some _, some l =>
    if schedOk then
      (some { alarm := some { pending := false, scheduled := some alarmScheduleMicros },
              led := some (!l),
              counter := (counter + 1) % U32MOD },
       [Action.clearInterrupt, Action.schedule alarmScheduleMicros, Action.toggle,
        Action.setCounter ((counter + 1) % U32MOD)])
    else
      (none, [Action.clearInterrupt, Action.schedule alarmScheduleMicros])
  | _, _ =>
    (some { s with counter := (counter + 1) % U32MOD },
     [Action.setCounter ((counter + 1) % U32MOD)])

/-- Repeated firings of the handler: fold TIMER_IRQ_0 over a list of schedule
call outcomes, stopping at a panic, and collect the action trace. -/
def run (s : SysState) : List Bool → Option SysState × List Action
  | [] => (some s, [])
  | ok :: rest =>
    match TIMER_IRQ_0 s ok with
    | (some s1, acts) =>
      let r := run s1 rest
      (r.1, acts ++ r.2)
    | (none, acts) => (none, acts)

/-- The body of the polling loop in main (lines 154 to 173) over a list of
successive counter reads: when the fresh read differs from counter_old, a
report pair (old value, new value) is emitted and the new value becomes the
baseline for the next iteration. -/
def observeRun (counter_old : Nat) : List Nat → List (Nat × Nat)
  | [] => []
  | c :: rest =>
    if counter_old ≠ c then (counter_old, c) :: observeRun c rest
    else observeRun counter_old rest

/-- The whole observation phase of main (lines 152 to 173): the baseline is the
first read, taken only after the interrupt is unmasked; the later reads drive
the reporting loop. -/
def mainObserve : List Nat → List (Nat × Nat)
  | [] => []
  | c0 :: rest => observeRun c0 rest

-- Helper lemmas

/-- One firing with both cells populated and a succeeding schedule call. -/
theorem step_populated (a : AlarmSt) (l : Bool) (c : Nat) :
    TIMER_IRQ_0 { alarm := some a, led := some l, counter := c } true =
      (some { alarm := some { pending := false, scheduled := some alarmScheduleMicros },
              led := some (!l), counter := (c + 1) % U32MOD },
       [Action.clearInterrupt, Action.schedule alarmScheduleMicros, Action.toggle,
        Action.setCounter ((c + 1) % U32MOD)]) := rfl

/-- Unfolding one successful firing at the head of a run. -/
theorem run_cons_true (a : AlarmSt) (l : Bool) (c : Nat) (rest : List Bool) :
    (run { alarm := some a, led := some l, counter := c } (true :: rest)).1 =
      (run { alarm := some { pending := false, scheduled := some alarmScheduleMicros },
             led := some (!l), counter := (c + 1) % U32MOD } rest).1 := rfl

/-- Toggling once more flips the parity bit of the toggle count. -/
theorem xor_step (l : Bool) (n : Nat) :
    Bool.xor (!l) (decide (n % 2 = 1)) = Bool.xor l (decide ((n + 1) % 2 = 1)) := by
  rcases Nat.mod_two_eq_zero_or_one n with h | h
  · have h2 : (n + 1) % 2 = 1 := by omega
    simp [h, h2]
  · have h2 : (n + 1) % 2 = 0 := by omega
    simp [h, h2]

/-- Closed form of a run of N firings from a populated state with every
schedule call succeeding: no panic, LED parity N, counter advanced by N with
wrapping, and the alarm left cleared and rearmed after any positive number of
firings. -/
theorem run_true_populated (N : Nat) (a : AlarmSt) (l : Bool) (c : Nat) :
    ∃ s1,
      (run { alarm := some a, led := some l, counter := c } (List.replicate N true)).1 = some s1
      ∧ s1.led = some (Bool.xor l (decide (N % 2 = 1)))
      ∧ (0 < N → s1.counter = (c + N) % U32MOD
          ∧ s1.alarm = some { pending := false, scheduled := some alarmScheduleMicros })
      ∧ (N = 0 → s1 = { alarm := some a, led := some l, counter := c }) := by
  induction N generalizing a l c with
  | zero =>
    refine ⟨{ alarm := some a, led := some l, counter := c }, rfl, by simp, ?_, fun _ => rfl⟩
    intro h
    exact absurd h (Nat.lt_irrefl 0)
  | succ n ih =>
    obtain ⟨s2, h1, h2, h3, h4⟩ :=
      ih { pending := false, scheduled := some alarmScheduleMicros } (!l) ((c + 1) % U32MOD)
    refine ⟨s2, ?_, ?_, ?_, ?_⟩
    · rw [List.replicate_succ, run_cons_true]
      exact h1
    · rw [h2, xor_step]
    · intro _
      rcases Nat.eq_zero_or_pos n with hn | hn
      · subst hn
        rw [h4 rfl]
        refine ⟨?_, rfl⟩
        simp
      · obtain ⟨hc, ha⟩ := h3 hn
        refine ⟨?_, ha⟩
        rw [hc, Nat.mod_add_mod]
        congr 1
        omega
    · intro h
      exact absurd h (Nat.succ_ne_zero n)

-- Claim theorems

/-- Claim C1 (code bug): the claim says the configured interval is 1000
milliseconds (one nominal second), but the handler passes
ALARM0_INTERVAL_MS.micros() to schedule, a countdown of 1000 microseconds —
not the 1,000,000 microseconds that 1000 milliseconds denote, contradicting
the name of the constant itself.  The schedule action emitted on a firing
carries this 1000-microsecond countdown. -/
theorem alarm_interval_unit_bug :
    alarmScheduleMicros = 1000 ∧
    ALARM0_INTERVAL_MS * 1000 = 1000000 ∧
    alarmScheduleMicros ≠ ALARM0_INTERVAL_MS * 1000 ∧
    Action.schedule alarmScheduleMicros ∈
      (TIMER_IRQ_0 { alarm := some { pending := true, scheduled := none },
                     led := some false, counter := 0 } true).2 := by
  refine ⟨rfl, rfl, by decide, ?_⟩
  simp [TIMER_IRQ_0]

/-- Claim C2 counterexample: with the output cell populated (LED at level
false) but the alarm cell empty, the handler does NOT toggle the output — the
LED level is unchanged and no toggle action is performed — refuting the claim
that the steps for the present capability are still carried out. -/
theorem skip_counterexample :
    TIMER_IRQ_0 { alarm := none, led := some false, counter := 0 } true =
      (some { alarm := none, led := some false, counter := 1 }, [Action.setCounter 1]) ∧
    Action.toggle ∉
      (TIMER_IRQ_0 { alarm := none, led := some false, counter := 0 } true).2 := by
  decide

/-- Claim C2 as amended: if either of the two cells is empty when the handler
runs, the handler skips the acknowledge, rearm and toggle steps for BOTH
capabilities — the whole guarded block is a defensive no-op, the present
capability included — and only the counter increment is performed. -/
theorem skip_when_any_cell_empty (s : SysState) (ok : Bool)
    (h : s.alarm = none ∨ s.led = none) :
    TIMER_IRQ_0 s ok =
      (some { s with counter := (s.counter + 1) % U32MOD },
       [Action.setCounter ((s.counter + 1) % U32MOD)]) := by
  rcases s with ⟨al, ld, c⟩
  rcases al with _ | a <;> rcases ld with _ | b
  · rfl
  · rfl
  · rfl
  · rcases h with h | h <;> simp at h

/-- Witness for skip_when_any_cell_empty at a concrete state. -/
theorem skip_when_any_cell_empty_witness :
    TIMER_IRQ_0 { alarm := none, led := some true, counter := 7 } true =
      (some { alarm := none, led := some true, counter := 8 }, [Action.setCounter 8]) := by
  have h := skip_when_any_cell_empty
    { alarm := none, led := some true, counter := 7 } true (Or.inl rfl)
  rw [h]
  decide

/-- Claim C3: from any state with both cells populated, a run of N firings
never panics and leaves the LED at the initial level XOR (N mod 2): each
firing toggles exactly once. -/
theorem led_parity_exact (N : Nat) (a : AlarmSt) (l : Bool) (c : Nat) :
    ∃ s1,
      (run { alarm := some a, led := some l, counter := c } (List.replicate N true)).1 = some s1
      ∧ s1.led = some (Bool.xor l (decide (N % 2 = 1))) := by
  obtain ⟨s1, h1, h2, _, _⟩ := run_true_populated N a l c
  exact ⟨s1, h1, h2⟩

/-- Claim C4: starting from the initial counter value 0, after exactly K
handler firings the counter reads K mod 2 to the 32, the wrap at K equal to
2 to the 32 included. -/
theorem counter_counts_mod_u32 (K : Nat) (a : AlarmSt) (l : Bool) :
    ∃ s1,
      (run { alarm := some a, led := some l, counter := 0 } (List.replicate K true)).1 = some s1
      ∧ s1.counter = K % 2 ^ 32 := by
  obtain ⟨s1, h1, _, h3, h4⟩ := run_true_populated K a l 0
  refine ⟨s1, h1, ?_⟩
  rcases Nat.eq_zero_or_pos K with hK | hK
  · subst hK
    rw [h4 rfl]
    simp
  · rw [(h3 hK).1]
    simp [U32MOD]

/-- Claim C5: on a firing with both capabilities installed and schedule
succeeding, the action trace is exactly acknowledge (clear the pending
condition), then rearm with the fixed interval, then toggle, then counter
store — the acknowledge strictly before the rearm. -/
theorem handler_step_order (a : AlarmSt) (l : Bool) (c : Nat) :
    (TIMER_IRQ_0 { alarm := some a, led := some l, counter := c } true).2 =
      [Action.clearInterrupt, Action.schedule alarmScheduleMicros, Action.toggle,
       Action.setCounter ((c + 1) % U32MOD)] := rfl

/-- Claim C6: if the handler runs before the one-time setup populated either
cell, it completes without panic — the result state is present, both reads
yield absent, the capability steps perform no action, and only the counter is
stored. -/
theorem safe_before_setup (c : Nat) (ok : Bool) :
    TIMER_IRQ_0 { alarm := none, led := none, counter := c } ok =
      (some { alarm := none, led := none, counter := (c + 1) % U32MOD },
       [Action.setCounter ((c + 1) % U32MOD)]) := rfl

/-- Claim C7: in each loop iteration, a read differing in any way from the
baseline (a wrap to a smaller value included, since only disequality is
tested) emits one report carrying the old and the new value and rebases on
the new value; an unchanged read emits nothing and keeps the baseline. -/
theorem observe_report_on_change (old c : Nat) (rest : List Nat) :
    (old ≠ c → observeRun old (c :: rest) = (old, c) :: observeRun c rest) ∧
    (old = c → observeRun old (c :: rest) = observeRun old rest) := by
  constructor
  · intro h
    simp [observeRun, h]
  · intro h
    simp [observeRun, h]

/-- Witness for observe_report_on_change: a change (including one where the
new value is smaller) is reported with both values, an unchanged value is
not. -/
theorem observe_report_on_change_witness :
    observeRun 5 [3] = [(5, 3)] ∧ observeRun 4 [4] = [] := by
  constructor
  · have h := (observe_report_on_change 5 3 []).1 (by decide)
    rw [h]
    rfl
  · have h := (observe_report_on_change 4 4 []).2 rfl
    rw [h]
    rfl

/-- Claim C8: when the schedule call inside the handler reports failure, the
run aborts right there — the final state is none (panic), the remaining
outcomes are never consulted (no retry), and no toggle happens at or after
the failure. -/
theorem schedule_failure_aborts (a : AlarmSt) (l : Bool) (c : Nat) (rest : List Bool) :
    run { alarm := some a, led := some l, counter := c } (false :: rest) =
      (none, [Action.clearInterrupt, Action.schedule alarmScheduleMicros]) ∧
    Action.toggle ∉
      (run { alarm := some a, led := some l, counter := c } (false :: rest)).2 := by
  have h : run { alarm := some a, led := some l, counter := c } (false :: rest) =
      (none, [Action.clearInterrupt, Action.schedule alarmScheduleMicros]) := rfl
  refine ⟨h, ?_⟩
  rw [h]
  decide

/-- Claim C9: a first read of c0 — however many firings happened before it —
emits no report; and two consecutive reads c0 and c0 + k with k at least 2
(several firings between the reads) yield a single coalesced report whose new
value exceeds its old value by more than one. -/
theorem observe_coalesced (c0 k : Nat) :
    mainObserve [c0] = [] ∧
    (2 ≤ k → mainObserve [c0, c0 + k] = [(c0, c0 + k)] ∧ c0 + 1 < c0 + k) := by
  refine ⟨rfl, ?_⟩
  intro hk
  have hne : c0 ≠ c0 + k := by omega
  constructor
  · simp [mainObserve, observeRun, hne]
  · omega

/-- Witness for observe_coalesced at concrete reads 4 then 7. -/
theorem observe_coalesced_witness :
    mainObserve [4] = [] ∧ mainObserve [4, 7] = [(4, 7)] ∧ (5 : Nat) < 7 := by
  have h := observe_coalesced 4 3
  exact ⟨h.1, (h.2 (by decide)).1, (h.2 (by decide)).2⟩

/-- Claim C10: whenever a handler invocation completes (no panic), the counter
is stored as the value read at entry plus one with wrapping — even when one or
both cells are empty — while in those empty-cell invocations no toggle is
performed, so the counter counts invocations and can exceed the number of
toggles. -/
theorem counter_counts_invocations (s : SysState) (ok : Bool) :
    (∀ s1, (TIMER_IRQ_0 s ok).1 = some s1 → s1.counter = (s.counter + 1) % U32MOD) ∧
    ((s.alarm = none ∨ s.led = none) → Action.toggle ∉ (TIMER_IRQ_0 s ok).2) := by
  rcases s with ⟨al, ld, c⟩
  rcases al with _ | a <;> rcases ld with _ | b
  · exact ⟨fun s1 h => by cases Option.some.inj h; rfl, fun _ => by simp [TIMER_IRQ_0]⟩
  · exact ⟨fun s1 h => by cases Option.some.inj h; rfl, fun _ => by simp [TIMER_IRQ_0]⟩
  · exact ⟨fun s1 h => by cases Option.some.inj h; rfl, fun _ => by simp [TIMER_IRQ_0]⟩
  · refine ⟨?_, ?_⟩
    · intro s1 h
      rcases ok with _ | _
      · exact absurd h (by simp [TIMER_IRQ_0])
      · cases Option.some.inj h
        rfl
    · intro h
      rcases h with h | h <;> simp at h

/-- Witness for counter_counts_invocations at a concrete empty-alarm state. -/
theorem counter_counts_invocations_witness :
    ({ alarm := none, led := some true, counter := 6 } : SysState).counter = (5 + 1) % U32MOD ∧
    Action.toggle ∉
      (TIMER_IRQ_0 { alarm := none, led := some true, counter := 5 } true).2 := by
  have h := counter_counts_invocations { alarm := none, led := some true, counter := 5 } true
  exact ⟨h.1 { alarm := none, led := some true, counter := 6 } (by decide), h.2 (Or.inl rfl)⟩

end PicoTimer
